import Mathlib

/-!
Verification of the token-launch monitoring and risk-scoring pipeline.

The definitions below are a shallow embedding of the repository's
risk-assessment core: the risk utilities (calculateRiskScore, getRiskLevel,
generateRiskSummary, isForkable), the RugCheck client (getTokenReport,
parseRiskFlags), the token analyzer (analyze, getOnChainFlags merge,
analyzeOnChain), and the token monitor's admission queue (queueToken) and
rate-limited request gate (rateLimitedRequest).  JavaScript numbers that
only ever hold small non-negative integers are embedded as Nat, scores fed
to getRiskLevel as Int (the source type is an arbitrary number), and
fractional quantities (percentages, USD liquidity) as Rat.
-/

namespace Forkoor

/-- String containment test mirroring the JavaScript method
String.prototype.includes: true when needle occurs as a contiguous
substring of the haystack.  Implemented on the underlying character
lists. -/
def charStartsWith : List Char → List Char → Bool
  | [], _ => true
  | _ :: _, [] => false
  | a :: as, b :: bs => a = b && charStartsWith as bs

/-- Recursive substring search on character lists. -/
def charSub (needle : List Char) : List Char → Bool
  | [] => charStartsWith needle []
  | c :: rest => charStartsWith needle (c :: rest) || charSub needle rest

/-- JavaScript s.includes(sub). -/
def strIncludes (s sub : String) : Bool :=
  charSub sub.data s.data

-- ============================================
-- Data model (from the types module)
-- ============================================

/-- RiskLevel, the four-way classification from the types module. -/
inductive RiskLevel where
  | LOW
  | MEDIUM
  | HIGH
  | CRITICAL
deriving DecidableEq, Repr

/-- TokenRiskFlags: the fixed set of seven named booleans. -/
structure TokenRiskFlags where
  mintAuthorityActive : Bool
  freezeAuthorityActive : Bool
  metadataMutable : Bool
  highHolderConcentration : Bool
  lpNotBurned : Bool
  lowLiquidity : Bool
  honeypot : Bool
deriving DecidableEq, Repr

/-- TokenRiskAssessment: the derived snapshot built by the analyzer. -/
structure TokenRiskAssessment where
  mint : String
  riskScore : Nat
  riskLevel : RiskLevel
  flags : TokenRiskFlags
  summary : String
  timestamp : Nat
  forkable : Bool
  forkableReason : Option String := none
deriving DecidableEq, Repr

/-- Platform of a token launch event. -/
inductive Platform where
  | PUMPFUN
  | RAYDIUM
  | ORCA
  | OTHER
deriving DecidableEq, Repr

/-- TokenLaunchEvent: identity of a newly observed token. -/
structure TokenLaunchEvent where
  mint : String
  name : String
  symbol : String
  platform : Platform
  timestamp : Nat
  initialLiquidity : Rat
  creator : String
deriving DecidableEq, Repr

-- ============================================
-- Constants (from the constants module)
-- ============================================

/-- The RISK_THRESHOLDS record from the constants module. -/
structure RiskThresholds where
  LOW : Int
  MEDIUM : Int
  HIGH : Int
deriving Repr

/-- RISK_THRESHOLDS: LOW 25, MEDIUM 50, HIGH 75. -/
def RISK_THRESHOLDS : RiskThresholds :=
  { LOW := 25, MEDIUM := 50, HIGH := 75 }

/-- HOLDER_CONCENTRATION_THRESHOLD: percent held by top 10 wallets. -/
def HOLDER_CONCENTRATION_THRESHOLD : Rat := 50

/-- MIN_LIQUIDITY_USD: minimum liquidity in USD to not flag low liquidity. -/
def MIN_LIQUIDITY_USD : Rat := 5000

-- ============================================
-- Risk utilities (calculateRiskScore and friends)
-- ============================================

/-- calculateRiskScore: sum of fixed weights over the true flags, clamped
to 100.  Sequential accumulation exactly as in the source. -/
def calculateRiskScore (flags : TokenRiskFlags) : Nat :=
  let score := 0
  let score := if flags.mintAuthorityActive then score + 35 else score
  let score := if flags.freezeAuthorityActive then score + 25 else score
  let score := if flags.honeypot then score + 40 else score
  let score := if flags.metadataMutable then score + 10 else score
  let score := if flags.highHolderConcentration then score + 15 else score
  let score := if flags.lpNotBurned then score + 10 else score
  let score := if flags.lowLiquidity then score + 5 else score
  min 100 score

/-- getRiskLevel: classify a score against the ascending thresholds. -/
def getRiskLevel (score : Int) : RiskLevel :=
  if score < RISK_THRESHOLDS.LOW then .LOW
  else if score < RISK_THRESHOLDS.MEDIUM then .MEDIUM
  else if score < RISK_THRESHOLDS.HIGH then .HIGH
  else .CRITICAL

/-- generateRiskSummary: one fixed sentence per true flag, joined by
newlines, or a fixed no-risk sentence.  The source sentences carry emoji
prefixes; only their text is reproduced here. -/
def generateRiskSummary (flags : TokenRiskFlags) : String :=
  let issues : List String := []
  let issues := if flags.mintAuthorityActive then
    issues ++ ["MINT AUTHORITY ACTIVE - Developer can print unlimited tokens"]
    else issues
  let issues := if flags.freezeAuthorityActive then
    issues ++ ["FREEZE AUTHORITY ACTIVE - Developer can freeze any wallet"]
    else issues
  let issues := if flags.honeypot then
    issues ++ ["HONEYPOT DETECTED - Selling is restricted or impossible"]
    else issues
  let issues := if flags.metadataMutable then
    issues ++ ["Metadata is mutable - Token identity can be changed"]
    else issues
  let issues := if flags.highHolderConcentration then
    issues ++ ["High holder concentration - Whale dump risk"]
    else issues
  let issues := if flags.lpNotBurned then
    issues ++ ["LP tokens not burned - Liquidity can be pulled"]
    else issues
  let issues := if flags.lowLiquidity then
    issues ++ ["Low liquidity - High slippage risk"]
    else issues
  if issues.length = 0 then
    "No significant risks detected"
  else
    String.intercalate "\n" issues

/-- Result record of isForkable: decision plus optional reason. -/
structure ForkDecision where
  forkable : Bool
  reason : Option String := none
deriving DecidableEq, Repr

/-- isForkable: false with a reason at LOW risk level, false with a reason
when none of the three critical flags is set, true otherwise. -/
def isForkable (assessment : TokenRiskAssessment) : ForkDecision :=
  if assessment.riskLevel = RiskLevel.LOW then
    { forkable := false, reason := some "Token is low risk - no need to fork" }
  else
    let flags := assessment.flags
    if !flags.mintAuthorityActive && !flags.freezeAuthorityActive
        && !flags.honeypot then
      { forkable := false
        reason := some "No critical flaws that can be fixed via fork" }
    else
      { forkable := true }

-- ============================================
-- RugCheck client (rugcheck.ts)
-- ============================================

/-- tokenMeta block of a RugCheck report. -/
structure TokenMeta where
  name : String
  symbol : String
  uri : String
  mutable : Bool
deriving DecidableEq, Repr

/-- fileMeta block of a RugCheck report. -/
structure FileMeta where
  name : String
  symbol : String
  description : String
  image : String
deriving DecidableEq, Repr

/-- One entry of the topHolders array. -/
structure TopHolder where
  address : String
  pct : Rat
  uiAmount : Rat
deriving DecidableEq, Repr

/-- One entry of the markets array. -/
structure Market where
  pubkey : String
  liquidityA : Rat
  liquidityB : Rat
  liquidityAUsd : Rat
  liquidityBUsd : Rat
deriving DecidableEq, Repr

/-- Severity level of a risk entry: info, warn or danger. -/
inductive RiskSeverity where
  | info
  | warn
  | danger
deriving DecidableEq, Repr

/-- One entry of the risks array. -/
structure RiskEntry where
  name : String
  value : String
  level : RiskSeverity
  description : String
deriving DecidableEq, Repr

/-- RugCheckTokenResponse: the report shape returned by the third-party
API.  Optional or nullable fields become Option. -/
structure RugCheckTokenResponse where
  mint : String
  tokenMeta : Option TokenMeta := none
  fileMeta : Option FileMeta := none
  topHolders : Option (List TopHolder) := none
  markets : Option (List Market) := none
  risks : Option (List RiskEntry) := none
  score : Option Rat := none
  mintAuthority : Option String := none
  freezeAuthority : Option String := none
  lpLocked : Option Bool := none
  isToken2022 : Option Bool := none
deriving DecidableEq, Repr

/-- Outcome of the HTTP GET behind getTokenReport: either a parsed body or
a failure with an HTTP status code. -/
inductive ApiResponse (α : Type) where
  | success (body : α)
  | failure (status : Nat)
deriving DecidableEq, Repr

/-- getTokenReport: returns the body on success, none on a 404 failure,
and rethrows (error) every other failure. -/
def getTokenReport (resp : ApiResponse RugCheckTokenResponse) :
    Except Nat (Option RugCheckTokenResponse) :=
  match resp with
  | .success body => .ok (some body)
  | .failure status =>
      if status = 404 then .ok none else .error status

/-- Check mint authority: a present non-empty mintAuthority string (JS
truthiness plus the explicit non-empty test) sets mintAuthorityActive. -/
def checkMintAuthority (report : RugCheckTokenResponse)
    (flags : TokenRiskFlags) : TokenRiskFlags :=
  match report.mintAuthority with
  | some a => if a ≠ "" then { flags with mintAuthorityActive := true } else flags
  | none => flags

/-- Check freeze authority: same test on freezeAuthority. -/
def checkFreezeAuthority (report : RugCheckTokenResponse)
    (flags : TokenRiskFlags) : TokenRiskFlags :=
  match report.freezeAuthority with
  | some a => if a ≠ "" then { flags with freezeAuthorityActive := true } else flags
  | none => flags

/-- Check metadata mutability: tokenMeta present with mutable true sets
metadataMutable. -/
def checkTokenMetaMutable (report : RugCheckTokenResponse)
    (flags : TokenRiskFlags) : TokenRiskFlags :=
  match report.tokenMeta with
  | some tm => if tm.mutable then { flags with metadataMutable := true } else flags
  | none => flags

/-- Check holder concentration: a present topHolders array (even empty,
being truthy) whose first ten percentages sum above 50 sets
highHolderConcentration. -/
def checkTopHolders (report : RugCheckTokenResponse)
    (flags : TokenRiskFlags) : TokenRiskFlags :=
  match report.topHolders with
  | some holders =>
      let top10Pct := ((holders.take 10).map TopHolder.pct).foldl (· + ·) 0
      if 50 < top10Pct then { flags with highHolderConcentration := true }
      else flags
  | none => flags

/-- Check LP status: lpLocked strictly equal to false sets lpNotBurned. -/
def checkLpLocked (report : RugCheckTokenResponse)
    (flags : TokenRiskFlags) : TokenRiskFlags :=
  if report.lpLocked = some false then { flags with lpNotBurned := true }
  else flags

/-- Check liquidity: a present markets array whose summed USD liquidity is
below 5000 sets lowLiquidity. -/
def checkMarkets (report : RugCheckTokenResponse)
    (flags : TokenRiskFlags) : TokenRiskFlags :=
  match report.markets with
  | some markets =>
      let totalLiquidityUsd :=
        (markets.map (fun m => m.liquidityAUsd + m.liquidityBUsd)).foldl (· + ·) 0
      if totalLiquidityUsd < 5000 then { flags with lowLiquidity := true }
      else flags
  | none => flags

/-- Check honeypot indicators: the first risk entry whose lowercased name
contains honeypot or cannot sell, when it exists and is danger level, sets
honeypot. -/
def checkRisks (report : RugCheckTokenResponse)
    (flags : TokenRiskFlags) : TokenRiskFlags :=
  match report.risks with
  | some risks =>
      match risks.find? (fun r =>
          strIncludes r.name.toLower "honeypot"
            || strIncludes r.name.toLower "cannot sell") with
      | some honeypotRisk =>
          if honeypotRisk.level = RiskSeverity.danger then
            { flags with honeypot := true }
          else flags
      | none => flags
  | none => flags

/-- parseRiskFlags: pure mapping from a RugCheck report to the seven
boolean flags, starting from all false and applying the source's guarded
assignments in order. -/
def parseRiskFlags (report : RugCheckTokenResponse) : TokenRiskFlags :=
  let flags : TokenRiskFlags :=
    { mintAuthorityActive := false
      freezeAuthorityActive := false
      metadataMutable := false
      highHolderConcentration := false
      lpNotBurned := false
      lowLiquidity := false
      honeypot := false }
  let flags := checkMintAuthority report flags
  let flags := checkFreezeAuthority report flags
  let flags := checkTokenMetaMutable report flags
  let flags := checkTopHolders report flags
  let flags := checkLpLocked report flags
  let flags := checkMarkets report flags
  let flags := checkRisks report flags
  flags

/-- The assessment-building block shared verbatim by getRiskAssessment,
analyze and analyzeOnChain: compute score, level and summary from the
flags, build the record with forkable false, then overwrite forkable and
forkableReason from isForkable. -/
def mkAssessment (mint : String) (flags : TokenRiskFlags) (now : Nat) :
    TokenRiskAssessment :=
  let riskScore := calculateRiskScore flags
  let riskLevel := getRiskLevel (riskScore : Int)
  let summary := generateRiskSummary flags
  let assessment : TokenRiskAssessment :=
    { mint := mint
      riskScore := riskScore
      riskLevel := riskLevel
      flags := flags
      summary := summary
      timestamp := now
      forkable := false }
  let forkability := isForkable assessment
  { assessment with
      forkable := forkability.forkable
      forkableReason := forkability.reason }

/-- getRiskAssessment: fetch the report; none stays none, a body is parsed
into flags and assembled into an assessment, an error propagates. -/
def getRiskAssessment (resp : ApiResponse RugCheckTokenResponse)
    (mint : String) (now : Nat) : Except Nat (Option TokenRiskAssessment) :=
  match getTokenReport resp with
  | .error status => .error status
  | .ok none => .ok none
  | .ok (some report) =>
      .ok (some (mkAssessment mint (parseRiskFlags report) now))

-- ============================================
-- Token analyzer (analyze / merge / analyzeOnChain)
-- ============================================

/-- Partial TokenRiskFlags, the return shape of getOnChainFlags: every
flag optional, as in the TypeScript Partial type. -/
structure PartialRiskFlags where
  mintAuthorityActive : Option Bool := none
  freezeAuthorityActive : Option Bool := none
  metadataMutable : Option Bool := none
  highHolderConcentration : Option Bool := none
  lpNotBurned : Option Bool := none
  lowLiquidity : Option Bool := none
  honeypot : Option Bool := none
deriving DecidableEq, Repr

/-- The object-spread merge from analyze: every flag present in the
on-chain partial overrides the base value, absent flags keep the base. -/
def mergeFlags (base : TokenRiskFlags) (onChain : PartialRiskFlags) :
    TokenRiskFlags :=
  { mintAuthorityActive := onChain.mintAuthorityActive.getD base.mintAuthorityActive
    freezeAuthorityActive := onChain.freezeAuthorityActive.getD base.freezeAuthorityActive
    metadataMutable := onChain.metadataMutable.getD base.metadataMutable
    highHolderConcentration :=
      onChain.highHolderConcentration.getD base.highHolderConcentration
    lpNotBurned := onChain.lpNotBurned.getD base.lpNotBurned
    lowLiquidity := onChain.lowLiquidity.getD base.lowLiquidity
    honeypot := onChain.honeypot.getD base.honeypot }

/-- The on-chain observations an analysis run consumes: the partial flag
set read by getOnChainFlags and the optional holder-concentration
percentage read by checkHolderConcentration (none when unavailable). -/
structure OnChainData where
  onChainFlags : PartialRiskFlags
  holderConcentration : Option Rat
deriving DecidableEq, Repr

/-- analyzeOnChain: all-false defaults overwritten by the on-chain partial
(Object.assign has the same override semantics as the spread), then the
holder-concentration check, then the shared assessment block. -/
def analyzeOnChain (onChain : OnChainData) (mint : String) (now : Nat) :
    TokenRiskAssessment :=
  let flags : TokenRiskFlags :=
    { mintAuthorityActive := false
      freezeAuthorityActive := false
      metadataMutable := false
      highHolderConcentration := false
      lpNotBurned := false
      lowLiquidity := false
      honeypot := false }
  let flags := mergeFlags flags onChain.onChainFlags
  let flags := match onChain.holderConcentration with
    | some concentration =>
        { flags with highHolderConcentration := 50 < concentration }
    | none => flags
  mkAssessment mint flags now

/-- analyze: a RugCheck assessment, when available, is enhanced with the
on-chain flags (on-chain takes precedence) and rebuilt; with no report the
analysis falls back to the pure on-chain path; a RugCheck error
propagates. -/
def analyze (resp : ApiResponse RugCheckTokenResponse)
    (onChain : OnChainData) (mint : String) (now : Nat) :
    Except Nat TokenRiskAssessment :=
  match getRiskAssessment resp mint now with
  | .error status => .error status
  | .ok (some rugcheckAssessment) =>
      let mergedFlags := mergeFlags rugcheckAssessment.flags onChain.onChainFlags
      .ok (mkAssessment mint mergedFlags now)
  | .ok none => .ok (analyzeOnChain onChain mint now)

-- ============================================
-- Token monitor (monitor.ts): admission queue and request gate
-- ============================================

/-- RPC_REQUEST_DELAY_MS in monitor.ts: 1 second between requests. -/
def RPC_REQUEST_DELAY_MS : Nat := 1000

/-- MAX_QUEUE_SIZE: max pending tokens to process. -/
def MAX_QUEUE_SIZE : Nat := 10

/-- RETRY_DELAY_MS: wait 5 seconds after a rate limit. -/
def RETRY_DELAY_MS : Nat := 5000

/-- MAX_RETRIES for the rate-limited request wrapper. -/
def MAX_RETRIES : Nat := 3

/-- queueToken: when the queue already holds MAX_QUEUE_SIZE or more
events, shift off the oldest (the head), then push the new event at the
back. -/
def queueToken (processingQueue : List TokenLaunchEvent)
    (event : TokenLaunchEvent) : List TokenLaunchEvent :=
  let processingQueue :=
    if MAX_QUEUE_SIZE ≤ processingQueue.length then
      processingQueue.drop 1
    else processingQueue
  processingQueue ++ [event]

/-- Result of one attempt of the wrapped operation: a value or a thrown
error carrying its message. -/
inductive Outcome (T : Type) where
  | ok (value : T)
  | err (msg : String)
deriving DecidableEq, Repr

/-- What a rateLimitedRequest call ends in: a value, null after exhausting
retries on rate limits, or a rethrown error. -/
inductive ReqResult (T : Type) where
  | ok (value : T)
  | nullResult
  | thrown (msg : String)
deriving DecidableEq, Repr

/-- The rate-limit-class test from the catch branch: the error message
contains 429 or Too Many Requests. -/
def isRateLimitMessage (msg : String) : Bool :=
  strIncludes msg "429" || strIncludes msg "Too Many Requests"

/-- Trace of one rateLimitedRequest run: the final result, the successive
values written to lastRequestTime (one per attempt, in order), and the
value lastRequestTime holds when the run ends. -/
structure GateRun (T : Type) where
  result : ReqResult T
  requestTimes : List Nat
  finalLastRequestTime : Nat
deriving DecidableEq, Repr

/-- Time at which an attempt actually issues its request: when less than
the minimum delay has passed since the last request, the gate sleeps out
the difference, so the request goes out at exactly the minimum spacing. -/
def gateStampTime (now lastRequestTime : Nat) : Nat :=
  let timeSinceLastRequest := now - lastRequestTime
  if timeSinceLastRequest < RPC_REQUEST_DELAY_MS then
    now + (RPC_REQUEST_DELAY_MS - timeSinceLastRequest)
  else now

/-- rateLimitedRequest: sleep out the minimum inter-request delay, stamp
lastRequestTime, run the operation; on a rate-limit-class error sleep
RETRY_DELAY_MS and recurse with one fewer retry, returning null once
retries run out; rethrow any other error.  Time is advanced only by the
two explicit sleeps; the operation is a function of the attempt index so
that successive attempts may observe different outcomes. -/
def rateLimitedRequest (fn : Nat → Outcome T) (attempt : Nat)
    (retries : Nat) (now lastRequestTime : Nat) : GateRun T :=
  let now := gateStampTime now lastRequestTime
  let lastRequestTime := now
  match fn attempt with
  | .ok value =>
      { result := .ok value
        requestTimes := [lastRequestTime]
        finalLastRequestTime := lastRequestTime }
  | .err msg =>
      if isRateLimitMessage msg then
        match retries with
        | r + 1 =>
            let rest := rateLimitedRequest fn (attempt + 1) r
              (now + RETRY_DELAY_MS) lastRequestTime
            { result := rest.result
              requestTimes := lastRequestTime :: rest.requestTimes
              finalLastRequestTime := rest.finalLastRequestTime }
        | 0 =>
            { result := .nullResult
              requestTimes := [lastRequestTime]
              finalLastRequestTime := lastRequestTime }
      else
        { result := .thrown msg
          requestTimes := [lastRequestTime]
          finalLastRequestTime := lastRequestTime }

-- ============================================
-- Theorems
-- ============================================

/-- Claim C1: for every RiskFlags value the score is exactly
min(100, 35 mint + 25 freeze + 40 honeypot + 10 metadata + 15 concentration
+ 10 lpNotBurned + 5 lowLiquidity); all seven flags true give 100 and all
false give 0. -/
theorem claim_C1 :
    (∀ flags : TokenRiskFlags,
      calculateRiskScore flags =
        min 100 (35 * flags.mintAuthorityActive.toNat
          + 25 * flags.freezeAuthorityActive.toNat
          + 40 * flags.honeypot.toNat
          + 10 * flags.metadataMutable.toNat
          + 15 * flags.highHolderConcentration.toNat
          + 10 * flags.lpNotBurned.toNat
          + 5 * flags.lowLiquidity.toNat))
    ∧ calculateRiskScore ⟨true, true, true, true, true, true, true⟩ = 100
    ∧ calculateRiskScore ⟨false, false, false, false, false, false, false⟩ = 0 := by
  refine ⟨?_, by decide, by decide⟩
  intro f
  obtain ⟨m, fr, mm, hc, lp, ll, hp⟩ := f
  revert m fr mm hc lp ll hp
  decide

/-- Claim C5: the score is a deterministic pure function of the flags,
bounded to the interval from 0 to 100, and setting any single flag to true
never decreases it. -/
theorem claim_C5 :
    (∀ f g : TokenRiskFlags, f = g → calculateRiskScore f = calculateRiskScore g)
    ∧ (∀ f : TokenRiskFlags,
        0 ≤ calculateRiskScore f ∧ calculateRiskScore f ≤ 100)
    ∧ (∀ f : TokenRiskFlags,
        calculateRiskScore f
          ≤ calculateRiskScore { f with mintAuthorityActive := true }
        ∧ calculateRiskScore f
          ≤ calculateRiskScore { f with freezeAuthorityActive := true }
        ∧ calculateRiskScore f
          ≤ calculateRiskScore { f with metadataMutable := true }
        ∧ calculateRiskScore f
          ≤ calculateRiskScore { f with highHolderConcentration := true }
        ∧ calculateRiskScore f
          ≤ calculateRiskScore { f with lpNotBurned := true }
        ∧ calculateRiskScore f
          ≤ calculateRiskScore { f with lowLiquidity := true }
        ∧ calculateRiskScore f
          ≤ calculateRiskScore { f with honeypot := true }) := by
  refine ⟨fun f g h => congrArg calculateRiskScore h, ?_, ?_⟩ <;>
    · intro f
      obtain ⟨m, fr, mm, hc, lp, ll, hp⟩ := f
      revert m fr mm hc lp ll hp
      decide

/-- Witness for claim C5 at a concrete flag set. -/
theorem claim_C5_witness :
    calculateRiskScore ⟨true, false, false, false, false, false, false⟩
      = calculateRiskScore ⟨true, false, false, false, false, false, false⟩
    ∧ calculateRiskScore ⟨true, false, false, false, false, false, false⟩ ≤ 100
    ∧ calculateRiskScore ⟨true, false, false, false, false, false, false⟩
      ≤ calculateRiskScore ⟨true, true, false, false, false, false, false⟩ :=
  ⟨claim_C5.1 _ _ rfl,
   (claim_C5.2.1 ⟨true, false, false, false, false, false, false⟩).2,
   (claim_C5.2.2 ⟨true, false, false, false, false, false, false⟩).2.1⟩

/-- Claim C9: the classification is LOW below 25, MEDIUM from 25 below 50,
HIGH from 50 below 75 and CRITICAL from 75 on, for every integer score;
and a score of 35, the score of mintAuthorityActive alone, is MEDIUM. -/
theorem claim_C9 :
    (∀ score : Int,
      (getRiskLevel score = RiskLevel.LOW ↔ score < 25)
      ∧ (getRiskLevel score = RiskLevel.MEDIUM ↔ 25 ≤ score ∧ score < 50)
      ∧ (getRiskLevel score = RiskLevel.HIGH ↔ 50 ≤ score ∧ score < 75)
      ∧ (getRiskLevel score = RiskLevel.CRITICAL ↔ 75 ≤ score))
    ∧ getRiskLevel 35 = RiskLevel.MEDIUM
    ∧ calculateRiskScore ⟨true, false, false, false, false, false, false⟩ = 35 := by
  refine ⟨?_, by decide, by decide⟩
  intro s
  simp only [getRiskLevel, RISK_THRESHOLDS]
  split_ifs with h1 h2 h3 <;>
    refine ⟨?_, ?_, ?_, ?_⟩ <;> simp <;> omega

/-- Claim C2: the forkability decision is false at LOW risk level, false
when the three critical flags are all false, and true when the level is
above LOW and at least one critical flag is set. -/
theorem claim_C2 (a : TokenRiskAssessment) :
    (a.riskLevel = RiskLevel.LOW → (isForkable a).forkable = false)
    ∧ (a.flags.mintAuthorityActive = false →
        a.flags.freezeAuthorityActive = false →
        a.flags.honeypot = false →
        (isForkable a).forkable = false)
    ∧ (a.riskLevel ≠ RiskLevel.LOW →
        (a.flags.mintAuthorityActive = true
          ∨ a.flags.freezeAuthorityActive = true
          ∨ a.flags.honeypot = true) →
        (isForkable a).forkable = true) := by
  obtain ⟨mint, score, level, flags, summary, ts, fk, reason⟩ := a
  obtain ⟨m, fr, mm, hc, lp, ll, hp⟩ := flags
  simp only [isForkable]
  cases level <;> cases m <;> cases fr <;> cases hp <;> simp

/-- Witness for claim C2 at three concrete assessments: a LOW one, a
CRITICAL one with no critical flag, and a HIGH one with mint authority
active. -/
theorem claim_C2_witness :
    (isForkable
      { mint := "So1", riskScore := 5, riskLevel := RiskLevel.LOW,
        flags := ⟨false, false, false, false, false, true, false⟩,
        summary := "", timestamp := 0, forkable := false }).forkable = false
    ∧ (isForkable
      { mint := "So2", riskScore := 40, riskLevel := RiskLevel.CRITICAL,
        flags := ⟨false, false, true, true, true, true, false⟩,
        summary := "", timestamp := 0, forkable := false }).forkable = false
    ∧ (isForkable
      { mint := "So3", riskScore := 35, riskLevel := RiskLevel.MEDIUM,
        flags := ⟨true, false, false, false, false, false, false⟩,
        summary := "", timestamp := 0, forkable := false }).forkable = true :=
  ⟨(claim_C2 _).1 rfl,
   (claim_C2 _).2.1 rfl rfl rfl,
   (claim_C2 _).2.2 (by decide) (Or.inl rfl)⟩

/-- Claim C10: in an assessment built consistently from the flags, the
forkability decision equals the disjunction of the three critical flags,
because any one of them alone scores at least 25 and lifts the level above
LOW. -/
theorem claim_C10 (mint : String) (flags : TokenRiskFlags) (now : Nat) :
    ((mkAssessment mint flags now).forkable =
      (flags.mintAuthorityActive || flags.freezeAuthorityActive
        || flags.honeypot))
    ∧ ((flags.mintAuthorityActive || flags.freezeAuthorityActive
        || flags.honeypot) = true →
      25 ≤ calculateRiskScore flags
      ∧ getRiskLevel (calculateRiskScore flags : Int) ≠ RiskLevel.LOW) := by
  obtain ⟨m, fr, mm, hc, lp, ll, hp⟩ := flags
  refine ⟨?_, ?_⟩
  · cases m <;> cases fr <;> cases mm <;> cases hc <;>
      cases lp <;> cases ll <;> cases hp <;> rfl
  · revert m fr mm hc lp ll hp
    decide

/-- Witness for claim C10: mint authority alone makes a consistently built
assessment forkable, with score 35 at least 25. -/
theorem claim_C10_witness :
    (mkAssessment "So1" ⟨true, false, false, false, false, false, false⟩ 0).forkable
      = true
    ∧ 25 ≤ calculateRiskScore ⟨true, false, false, false, false, false, false⟩ := by
  have h := claim_C10 "So1" ⟨true, false, false, false, false, false, false⟩ 0
  exact ⟨h.1, (h.2 rfl).1⟩

/-- Claim C4: in the merged flag set every flag present in the on-chain
partial result takes its on-chain value and every absent flag keeps the
third-party value. -/
theorem claim_C4 (base : TokenRiskFlags) (onChain : PartialRiskFlags) :
    (∀ b, onChain.mintAuthorityActive = some b →
      (mergeFlags base onChain).mintAuthorityActive = b)
    ∧ (onChain.mintAuthorityActive = none →
      (mergeFlags base onChain).mintAuthorityActive = base.mintAuthorityActive)
    ∧ (∀ b, onChain.freezeAuthorityActive = some b →
      (mergeFlags base onChain).freezeAuthorityActive = b)
    ∧ (onChain.freezeAuthorityActive = none →
      (mergeFlags base onChain).freezeAuthorityActive = base.freezeAuthorityActive)
    ∧ (∀ b, onChain.metadataMutable = some b →
      (mergeFlags base onChain).metadataMutable = b)
    ∧ (onChain.metadataMutable = none →
      (mergeFlags base onChain).metadataMutable = base.metadataMutable)
    ∧ (∀ b, onChain.highHolderConcentration = some b →
      (mergeFlags base onChain).highHolderConcentration = b)
    ∧ (onChain.highHolderConcentration = none →
      (mergeFlags base onChain).highHolderConcentration
        = base.highHolderConcentration)
    ∧ (∀ b, onChain.lpNotBurned = some b →
      (mergeFlags base onChain).lpNotBurned = b)
    ∧ (onChain.lpNotBurned = none →
      (mergeFlags base onChain).lpNotBurned = base.lpNotBurned)
    ∧ (∀ b, onChain.lowLiquidity = some b →
      (mergeFlags base onChain).lowLiquidity = b)
    ∧ (onChain.lowLiquidity = none →
      (mergeFlags base onChain).lowLiquidity = base.lowLiquidity)
    ∧ (∀ b, onChain.honeypot = some b →
      (mergeFlags base onChain).honeypot = b)
    ∧ (onChain.honeypot = none →
      (mergeFlags base onChain).honeypot = base.honeypot) := by
  refine ⟨?_, ?_, ?_, ?_, ?_, ?_, ?_, ?_, ?_, ?_, ?_, ?_, ?_, ?_⟩ <;>
    intros <;> simp_all [mergeFlags]

/-- Witness for claim C4: third-party mint authority false merged with
on-chain mint authority true yields true, and a flag the on-chain partial
omits keeps its third-party value. -/
theorem claim_C4_witness :
    (mergeFlags ⟨false, false, false, false, false, false, true⟩
      { mintAuthorityActive := some true }).mintAuthorityActive = true
    ∧ (mergeFlags ⟨false, false, false, false, false, false, true⟩
      { mintAuthorityActive := some true }).honeypot = true :=
  ⟨(claim_C4 _ _).1 true rfl, (claim_C4 _ _).2.2.2.2.2.2.2.2.2.2.2.2.2 rfl⟩

/-- The mint-authority check never touches lpNotBurned. -/
theorem checkMintAuthority_lpNotBurned (r : RugCheckTokenResponse)
    (f : TokenRiskFlags) :
    (checkMintAuthority r f).lpNotBurned = f.lpNotBurned := by
  unfold checkMintAuthority
  repeat' split
  all_goals rfl

/-- The freeze-authority check never touches lpNotBurned. -/
theorem checkFreezeAuthority_lpNotBurned (r : RugCheckTokenResponse)
    (f : TokenRiskFlags) :
    (checkFreezeAuthority r f).lpNotBurned = f.lpNotBurned := by
  unfold checkFreezeAuthority
  repeat' split
  all_goals rfl

/-- The metadata-mutability check never touches lpNotBurned. -/
theorem checkTokenMetaMutable_lpNotBurned (r : RugCheckTokenResponse)
    (f : TokenRiskFlags) :
    (checkTokenMetaMutable r f).lpNotBurned = f.lpNotBurned := by
  unfold checkTokenMetaMutable
  repeat' split
  all_goals rfl

/-- The holder-concentration check never touches lpNotBurned. -/
theorem checkTopHolders_lpNotBurned (r : RugCheckTokenResponse)
    (f : TokenRiskFlags) :
    (checkTopHolders r f).lpNotBurned = f.lpNotBurned := by
  unfold checkTopHolders
  repeat' split
  all_goals first
    | rfl
    | (simp only []; split <;> rfl)

/-- The liquidity check never touches lpNotBurned. -/
theorem checkMarkets_lpNotBurned (r : RugCheckTokenResponse)
    (f : TokenRiskFlags) :
    (checkMarkets r f).lpNotBurned = f.lpNotBurned := by
  unfold checkMarkets
  repeat' split
  all_goals first
    | rfl
    | (simp only []; split <;> rfl)

/-- The honeypot check never touches lpNotBurned. -/
theorem checkRisks_lpNotBurned (r : RugCheckTokenResponse)
    (f : TokenRiskFlags) :
    (checkRisks r f).lpNotBurned = f.lpNotBurned := by
  unfold checkRisks
  repeat' split
  all_goals rfl

/-- The LP check sets lpNotBurned exactly on an explicit lpLocked false,
otherwise leaves it. -/
theorem checkLpLocked_lpNotBurned (r : RugCheckTokenResponse)
    (f : TokenRiskFlags) :
    (checkLpLocked r f).lpNotBurned
      = (decide (r.lpLocked = some false) || f.lpNotBurned) := by
  unfold checkLpLocked
  split <;> simp_all

/-- Counterexample to claim C3 as stated: a report with no lpLocked field
at all is mapped to lpNotBurned false, not true. -/
theorem claim_C3_counterexample :
    ({ mint := "So1" } : RugCheckTokenResponse).lpLocked = none
    ∧ (parseRiskFlags { mint := "So1" }).lpNotBurned = false :=
  ⟨rfl, rfl⟩

/-- Claim C3 as amended: the flag mapping sets lp-not-burned exactly when
the report carries lpLocked explicitly false; when the field is absent the
flag stays false. -/
theorem claim_C3_amended_theorem (report : RugCheckTokenResponse) :
    (parseRiskFlags report).lpNotBurned = true ↔ report.lpLocked = some false := by
  have h : (parseRiskFlags report).lpNotBurned
      = (decide (report.lpLocked = some false) || false) := by
    simp only [parseRiskFlags]
    rw [checkRisks_lpNotBurned, checkMarkets_lpNotBurned,
      checkLpLocked_lpNotBurned, checkTopHolders_lpNotBurned,
      checkTokenMetaMutable_lpNotBurned, checkFreezeAuthority_lpNotBurned,
      checkMintAuthority_lpNotBurned]
  rw [h]
  simp

/-- Claim C8: a 404 failure from the risk API yields an absent report
rather than an error, analysis then completes through the on-chain-only
path, and every other failure status propagates as an error. -/
theorem claim_C8 :
    getTokenReport (ApiResponse.failure 404) = Except.ok none
    ∧ (∀ (onChain : OnChainData) (mint : String) (now : Nat),
        analyze (ApiResponse.failure 404) onChain mint now
          = Except.ok (analyzeOnChain onChain mint now))
    ∧ (∀ status : Nat, status ≠ 404 →
        getTokenReport (ApiResponse.failure status)
          = (Except.error status : Except Nat (Option RugCheckTokenResponse))) := by
  refine ⟨rfl, fun onChain mint now => rfl, ?_⟩
  intro status h
  simp [getTokenReport, h]

/-- Witness for claim C8: status 500 propagates as an error while a 404
falls back to the on-chain analysis of an empty observation set. -/
theorem claim_C8_witness :
    getTokenReport (ApiResponse.failure 500)
      = (Except.error 500 : Except Nat (Option RugCheckTokenResponse))
    ∧ analyze (ApiResponse.failure 404)
        { onChainFlags := {}, holderConcentration := none } "So1" 0
      = Except.ok (analyzeOnChain
        { onChainFlags := {}, holderConcentration := none } "So1" 0) :=
  ⟨claim_C8.2.2 500 (by decide), claim_C8.2.1 _ "So1" 0⟩

/-- One enqueue keeps a queue that respected the bound within the
bound. -/
theorem queueToken_length_le (q : List TokenLaunchEvent)
    (e : TokenLaunchEvent) (h : q.length ≤ MAX_QUEUE_SIZE) :
    (queueToken q e).length ≤ MAX_QUEUE_SIZE := by
  unfold queueToken MAX_QUEUE_SIZE at *
  split <;> simp_all
  omega

/-- Folding enqueues over any event list preserves the bound. -/
theorem foldl_queueToken_length_le (events : List TokenLaunchEvent) :
    ∀ q : List TokenLaunchEvent, q.length ≤ MAX_QUEUE_SIZE →
      (events.foldl queueToken q).length ≤ MAX_QUEUE_SIZE := by
  induction events with
  | nil => intro q h; simpa using h
  | cons e rest ih => intro q h; exact ih _ (queueToken_length_le q e h)

/-- Claim C6: starting empty, the admission queue never exceeds ten items,
and eleven enqueued items leave exactly the last ten in original relative
order, the first item evicted. -/
theorem claim_C6 :
    (∀ events : List TokenLaunchEvent,
      (events.foldl queueToken []).length ≤ MAX_QUEUE_SIZE)
    ∧ (∀ e1 e2 e3 e4 e5 e6 e7 e8 e9 e10 e11 : TokenLaunchEvent,
      [e1, e2, e3, e4, e5, e6, e7, e8, e9, e10, e11].foldl queueToken []
        = [e2, e3, e4, e5, e6, e7, e8, e9, e10, e11]) := by
  constructor
  · intro events
    exact foldl_queueToken_length_le events [] (by simp [MAX_QUEUE_SIZE])
  · intro e1 e2 e3 e4 e5 e6 e7 e8 e9 e10 e11
    simp [List.foldl, queueToken, MAX_QUEUE_SIZE]

/-- A request issued a full retry cooldown after the previous stamp waits
no further. -/
theorem gateStampTime_add_retry (t : Nat) :
    gateStampTime (t + RETRY_DELAY_MS) t = t + RETRY_DELAY_MS := by
  simp [gateStampTime, RPC_REQUEST_DELAY_MS, RETRY_DELAY_MS]

/-- Claim C7: when every attempt fails with a rate-limit-class error the
gate makes the initial attempt plus MAX_RETRIES retries spaced
RETRY_DELAY_MS apart, stamps lastRequestTime at each of those attempts
(failed ones included) and ends in null rather than a thrown error; a
non-rate-limit error is rethrown at once after a single attempt. -/
theorem claim_C7 (T : Type) :
    (∀ (fn : Nat → Outcome T) (msg : Nat → String) (now lrt : Nat),
      (∀ i, i ≤ MAX_RETRIES → fn i = Outcome.err (msg i)) →
      (∀ i, i ≤ MAX_RETRIES → isRateLimitMessage (msg i) = true) →
      (rateLimitedRequest fn 0 MAX_RETRIES now lrt).result
          = ReqResult.nullResult
      ∧ (rateLimitedRequest fn 0 MAX_RETRIES now lrt).requestTimes
          = [gateStampTime now lrt,
             gateStampTime now lrt + RETRY_DELAY_MS,
             gateStampTime now lrt + RETRY_DELAY_MS + RETRY_DELAY_MS,
             gateStampTime now lrt + RETRY_DELAY_MS + RETRY_DELAY_MS
               + RETRY_DELAY_MS]
      ∧ (rateLimitedRequest fn 0 MAX_RETRIES now lrt).finalLastRequestTime
          = gateStampTime now lrt + RETRY_DELAY_MS + RETRY_DELAY_MS
            + RETRY_DELAY_MS)
    ∧ (∀ (fn : Nat → Outcome T) (msg : String) (now lrt : Nat),
      fn 0 = Outcome.err msg →
      isRateLimitMessage msg = false →
      (rateLimitedRequest fn 0 MAX_RETRIES now lrt).result
          = ReqResult.thrown msg
      ∧ (rateLimitedRequest fn 0 MAX_RETRIES now lrt).requestTimes
          = [gateStampTime now lrt]) := by
  constructor
  · intro fn msg now lrt hfn hrl
    have h0 := hfn 0 (by decide)
    have h1 := hfn 1 (by decide)
    have h2 := hfn 2 (by decide)
    have h3 := hfn 3 (by decide)
    have r0 := hrl 0 (by decide)
    have r1 := hrl 1 (by decide)
    have r2 := hrl 2 (by decide)
    have r3 := hrl 3 (by decide)
    refine ⟨?_, ?_, ?_⟩ <;>
      simp [rateLimitedRequest, MAX_RETRIES, h0, h1, h2, h3, r0, r1, r2, r3,
        gateStampTime_add_retry]
  · intro fn msg now lrt hfn hrl
    refine ⟨?_, ?_⟩ <;> simp [rateLimitedRequest, MAX_RETRIES, hfn, hrl]

/-- Witness for claim C7: an operation that always answers 429 ends null
after four attempts at 1000, 6000, 11000 and 16000 milliseconds, while an
operation throwing boom is rethrown at once. -/
theorem claim_C7_witness :
    (rateLimitedRequest (fun _ => (Outcome.err "429" : Outcome Nat))
        0 MAX_RETRIES 0 0).result = ReqResult.nullResult
    ∧ (rateLimitedRequest (fun _ => (Outcome.err "429" : Outcome Nat))
        0 MAX_RETRIES 0 0).requestTimes = [1000, 6000, 11000, 16000]
    ∧ (rateLimitedRequest (fun _ => (Outcome.err "boom" : Outcome Nat))
        0 MAX_RETRIES 0 0).result = ReqResult.thrown "boom" := by
  have h429 : isRateLimitMessage "429" = true := by decide
  have ha := (claim_C7 Nat).1 (fun _ => Outcome.err "429") (fun _ => "429")
    0 0 (fun i _ => rfl) (fun i _ => h429)
  have hb := (claim_C7 Nat).2 (fun _ => Outcome.err "boom") "boom"
    0 0 rfl (by decide)
  refine ⟨ha.1, ?_, hb.1⟩
  have := ha.2.1
  simpa [gateStampTime, RPC_REQUEST_DELAY_MS, RETRY_DELAY_MS] using this

end Forkoor
